import Mathlib

set_option maxRecDepth 100000

/-!
Verification of the candidate assessment engine of the
intelligent-mock-interview-assistant repository.

The development shallowly embeds the Python source:

* `src/optimized_deepseek.py` — `OptimizedDeepSeekAI`: answer evaluation with
  a content-addressed cache and a remote-assist call (`evaluate_answer`,
  `_parse_evaluation`, `_basic_evaluation`, `_poor_evaluation`, `_api_call`,
  the cache-key derivations of `evaluate_answer` and `generate_questions`).
* `src/deepseek_ai.py` — the plain `DeepSeekAI` client (`evaluate_answer`,
  `_parse_evaluation`, `_basic_evaluation`, its request construction).
* `src/enhanced_resume_parser.py` — `_extract_experience_years`,
  `_get_fallback_data` and the empty-text branch of `parse_resume`.
* `src/advanced_evaluator.py` — `_evaluate_technical_mastery` and
  `_evaluate_communication_excellence` (the word-count gates).
* `src/huggingface_mcp_server.py` / `src/minimal_app.py` — the session
  aggregation (mean overall score and per-dimension means).

Modelling conventions: Python `float` arithmetic is modelled by exact
rationals (`ℚ`); every operation the claims touch (`min`, `max`, comparison
against integer thresholds away from representation ties, division by 100)
is order-exact, so no claim here depends on binary rounding.  Python's
`int(x)` on the non-negative scores that occur is `⌊x⌋`.  The remote HTTP
call is modelled by an explicit outcome value (`ApiOutcome`), and the
`json.loads` stage of response parsing by an optional decoded record: `none`
stands for a body in which no JSON object of the expected shape could be
found, which in the source falls through to the local fallback.  MD5 (used
by the source for cache keys, via `hashlib.md5(...).hexdigest()`) is
implemented in full so that cache keys are the very strings the source
builds.
-/

/-! ## Python string primitives -/

/-- Whitespace set of Python's `str.split()` / `str.strip()` (ASCII part:
space, tab, newline, carriage return, vertical tab, form feed). -/
def pyIsSpace (c : Char) : Bool :=
  c = ' ' || c = '\t' || c = '\n' || c = '\x0d' || c = '\x0b' || c = '\x0c'

/-- Python `str.strip()`: drop leading and trailing whitespace. -/
def pyStrip (s : String) : String :=
  (((s.data.dropWhile pyIsSpace).reverse.dropWhile pyIsSpace).reverse).asString

/-- Helper for `pyWords`: split a character list on runs of whitespace. -/
def wordsAux : List Char → List Char → List (List Char)
  | [], [] => []
  | [], acc => [acc.reverse]
  | c :: cs, acc =>
    if pyIsSpace c then
      match acc with
      | [] => wordsAux cs []
      | _ => acc.reverse :: wordsAux cs []
    else wordsAux cs (c :: acc)

/-- Python `str.split()` with no argument: the list of maximal
whitespace-free runs. -/
def pyWords (s : String) : List String := (wordsAux s.data []).map List.asString

/-- Python `len(s.split())`, the word count the evaluators use. -/
def pyWordCount (s : String) : Nat := (pyWords s).length

/-- Python `str.lower()` (ASCII case folding). -/
def pyLower (s : String) : String := ⟨s.data.map Char.toLower⟩

/-- Helper for `strContains`: does `pat` occur as a contiguous run of `l`? -/
def charsContain : List Char → List Char → Bool
  | _, [] => true
  | [], _ => false
  | c :: cs, pat => (List.isPrefixOf pat (c :: cs)) || charsContain cs pat

/-- Python `pat in s` on strings: substring containment. -/
def strContains (s pat : String) : Bool := charsContain s.data pat.data

/-- Python `str(list_of_str)`: the `repr` the source feeds to `hashlib.md5`
in `generate_questions` (elements quoted with `'`, joined by `", "`). -/
def pyStrList (l : List String) : String :=
  let quote := String.singleton (Char.ofNat 39)
  "[" ++ String.intercalate ", " (l.map fun s => quote ++ s ++ quote) ++ "]"

/-! ## MD5 (as `hashlib.md5(x.encode()).hexdigest()`)

The source derives cache keys from truncated MD5 hex digests; the digest is
implemented here bit-for-bit (RFC 1321) over the UTF-8 bytes of the input so
that key-derivation claims are settled on the very strings the source
builds. -/

/-- Rotate a 32-bit word left by `n`. -/
def rotl32 (x n : Nat) : Nat := ((x <<< n) % 2 ^ 32) ||| (x >>> (32 - n))

/-- MD5 round constants `K[0..63]`. -/
def md5K : List Nat :=
  [0xd76aa478, 0xe8c7b756, 0x242070db, 0xc1bdceee, 0xf57c0faf, 0x4787c62a,
   0xa8304613, 0xfd469501, 0x698098d8, 0x8b44f7af, 0xffff5bb1, 0x895cd7be,
   0x6b901122, 0xfd987193, 0xa679438e, 0x49b40821, 0xf61e2562, 0xc040b340,
   0x265e5a51, 0xe9b6c7aa, 0xd62f105d, 0x02441453, 0xd8a1e681, 0xe7d3fbc8,
   0x21e1cde6, 0xc33707d6, 0xf4d50d87, 0x455a14ed, 0xa9e3e905, 0xfcefa3f8,
   0x676f02d9, 0x8d2a4c8a, 0xfffa3942, 0x8771f681, 0x6d9d6122, 0xfde5380c,
   0xa4beea44, 0x4bdecfa9, 0xf6bb4b60, 0xbebfbc70, 0x289b7ec6, 0xeaa127fa,
   0xd4ef3085, 0x04881d05, 0xd9d4d039, 0xe6db99e5, 0x1fa27cf8, 0xc4ac5665,
   0xf4292244, 0x432aff97, 0xab9423a7, 0xfc93a039, 0x655b59c3, 0x8f0ccc92,
   0xffeff47d, 0x85845dd1, 0x6fa87e4f, 0xfe2ce6e0, 0xa3014314, 0x4e0811a1,
   0xf7537e82, 0xbd3af235, 0x2ad7d2bb, 0xeb86d391]

/-- MD5 per-round left-rotation amounts `s[0..63]`. -/
def md5S : List Nat :=
  [7, 12, 17, 22, 7, 12, 17, 22, 7, 12, 17, 22, 7, 12, 17, 22,
   5, 9, 14, 20, 5, 9, 14, 20, 5, 9, 14, 20, 5, 9, 14, 20,
   4, 11, 16, 23, 4, 11, 16, 23, 4, 11, 16, 23, 4, 11, 16, 23,
   6, 10, 15, 21, 6, 10, 15, 21, 6, 10, 15, 21, 6, 10, 15, 21]

/-- UTF-8 encoding of one code point (Python `str.encode()`). -/
def utf8Bytes (c : Char) : List Nat :=
  let n := c.toNat
  if n < 0x80 then [n]
  else if n < 0x800 then [0xc0 ||| (n >>> 6), 0x80 ||| (n &&& 0x3f)]
  else if n < 0x10000 then
    [0xe0 ||| (n >>> 12), 0x80 ||| ((n >>> 6) &&& 0x3f), 0x80 ||| (n &&& 0x3f)]
  else
    [0xf0 ||| (n >>> 18), 0x80 ||| ((n >>> 12) &&& 0x3f),
     0x80 ||| ((n >>> 6) &&& 0x3f), 0x80 ||| (n &&& 0x3f)]

/-- UTF-8 bytes of a string. -/
def strBytes (s : String) : List Nat := s.data.flatMap utf8Bytes

/-- MD5 padding: `0x80`, zeros to 56 mod 64, then the 64-bit little-endian
bit length. -/
def md5Pad (msg : List Nat) : List Nat :=
  let len := msg.length
  let zeros := (55 - len % 64 + 64) % 64
  let bitLen := (len * 8) % 2 ^ 64
  msg ++ [0x80] ++ List.replicate zeros 0 ++
    ((List.range 8).map fun i => (bitLen >>> (8 * i)) &&& 0xff)

/-- Little-endian 32-bit word from four bytes. -/
def leWord (b : List Nat) : Nat :=
  match b with
  | [b0, b1, b2, b3] => b0 ||| (b1 <<< 8) ||| (b2 <<< 16) ||| (b3 <<< 24)
  | _ => 0

/-- Group a byte list into little-endian 32-bit words. -/
def chunkWords : List Nat → List Nat
  | b0 :: b1 :: b2 :: b3 :: rest => leWord [b0, b1, b2, b3] :: chunkWords rest
  | _ => []

/-- One of the 64 MD5 rounds on state `(a, b, c, d)` with message words `m`. -/
def md5Round (m : List Nat) (st : Nat × Nat × Nat × Nat) (i : Nat) :
    Nat × Nat × Nat × Nat :=
  let (a, b, c, d) := st
  let (f, g) :=
    if i < 16 then ((b &&& c) ||| ((b ^^^ 0xffffffff) &&& d), i)
    else if i < 32 then ((d &&& b) ||| ((d ^^^ 0xffffffff) &&& c), (5 * i + 1) % 16)
    else if i < 48 then (b ^^^ c ^^^ d, (3 * i + 5) % 16)
    else (c ^^^ (b ||| (d ^^^ 0xffffffff)), (7 * i) % 16)
  let f2 := (f + a + (md5K.getD i 0) + (m.getD g 0)) % 2 ^ 32
  (d, (b + rotl32 f2 (md5S.getD i 0)) % 2 ^ 32, b, c)

/-- Process one 512-bit block. -/
def md5Block (st : Nat × Nat × Nat × Nat) (m : List Nat) :
    Nat × Nat × Nat × Nat :=
  let (a0, b0, c0, d0) := st
  let (a, b, c, d) := (List.range 64).foldl (md5Round m) st
  ((a0 + a) % 2 ^ 32, (b0 + b) % 2 ^ 32, (c0 + c) % 2 ^ 32, (d0 + d) % 2 ^ 32)

/-- Fuel-driven 64-byte chunking (fuel bounds the recursion depth; with fuel
`l.length` every block is reached, since each step consumes 64 bytes). -/
def chunks64Aux : Nat → List Nat → List (List Nat)
  | 0, _ => []
  | _ + 1, [] => []
  | n + 1, c :: rest => ((c :: rest).take 64) :: chunks64Aux n ((c :: rest).drop 64)

/-- A padded message split into 64-byte blocks. -/
def chunks64 (l : List Nat) : List (List Nat) := chunks64Aux l.length l

/-- Lowercase hexadecimal digit. -/
def hexDigit (n : Nat) : Char :=
  if n < 10 then Char.ofNat (48 + n) else Char.ofNat (87 + n)

/-- Two hex digits of one byte. -/
def byteHex (n : Nat) : List Char := [hexDigit (n / 16), hexDigit (n % 16)]

/-- Hex rendering of a 32-bit state word, least-significant byte first. -/
def wordLEHex (w : Nat) : List Char :=
  byteHex (w &&& 0xff) ++ byteHex ((w >>> 8) &&& 0xff) ++
    byteHex ((w >>> 16) &&& 0xff) ++ byteHex ((w >>> 24) &&& 0xff)

/-- Python `hashlib.md5(s.encode()).hexdigest()`. -/
def md5Hex (s : String) : String :=
  let blocks := (chunks64 (md5Pad (strBytes s))).map chunkWords
  let (a, b, c, d) :=
    blocks.foldl md5Block (0x67452301, 0xefcdab89, 0x98badcfe, 0x10325476)
  (wordLEHex a ++ wordLEHex b ++ wordLEHex c ++ wordLEHex d).asString

/-! ## Evaluation records (shared result shape of both clients) -/

/-- The `hiring_decision` sub-dict of an evaluation. -/
structure HiringDecision where
  decision : String
  confidence : ℚ
deriving DecidableEq, Repr

/-- An evaluation dict: overall score, the six dimension scores, feedback
and the hiring decision. -/
structure Evaluation where
  overall_score : ℚ
  technical_mastery : ℚ
  problem_solving : ℚ
  communication : ℚ
  innovation : ℚ
  leadership : ℚ
  system_thinking : ℚ
  detailed_feedback : String
  hiring_decision : HiringDecision
deriving DecidableEq, Repr

/-! ## `OptimizedDeepSeekAI` (src/optimized_deepseek.py) -/

/-- Source `_poor_evaluation` (lines 454-471): the evaluation for empty
answers. -/
def poorEvaluation : Evaluation :=
  { overall_score := 20
    technical_mastery := 20
    problem_solving := 20
    communication := 10
    innovation := 20
    leadership := 30
    system_thinking := 20
    detailed_feedback := "No response provided. Please provide a detailed answer."
    hiring_decision := { decision := "No Hire", confidence := 9 / 10 } }

/-- Source `_basic_evaluation` (lines 432-452): the local fallback scorer.
`words * 1.2` is the source's float product, modelled exactly; `int(...)`
on these non-negative values is the floor. -/
def basicEvaluation (answer : String) : Evaluation :=
  let words : ℚ := pyWordCount answer
  let score : ℚ := min 85 (max 30 (words * (12 / 10)))
  { overall_score := ((⌊score⌋ : ℤ) : ℚ)
    technical_mastery := ((⌊score⌋ : ℤ) : ℚ)
    problem_solving := ((max 0 ⌊score - 5⌋ : ℤ) : ℚ)
    communication := min 100 (words * 2)
    innovation := ((max 0 ⌊score - 10⌋ : ℤ) : ℚ)
    leadership := ((max 0 ⌊score - 15⌋ : ℤ) : ℚ)
    system_thinking := ((max 0 ⌊score - 5⌋ : ℤ) : ℚ)
    detailed_feedback :=
      if 10 < pyWordCount answer then
        "AI evaluation not available. Consider adding more technical details."
      else "Response too short for proper evaluation."
    hiring_decision :=
      { decision := if 65 ≤ score then "Hire" else "No Hire"
        confidence := min (9 / 10) (max (5 / 10) (score / 100)) } }

/-- The fields `_parse_evaluation` reads out of the JSON object found in the
response body (`eval_data.get(...)`); a missing key is `none`. -/
structure EvalData where
  score : Option ℚ
  feedback : Option String
  decision : Option String
deriving DecidableEq, Repr

/-- Source `_parse_evaluation` (lines 297-325).  The argument `c` is the
decoded JSON object of the response body: `none` when no object of the
expected shape could be extracted (no `{...}` match, `json.JSONDecodeError`,
or a non-numeric score raising inside the `try`), in which case the source
falls through to `_basic_evaluation(answer)`. -/
def parseEvaluation (c : Option EvalData) (answer : String) : Evaluation :=
  match c with
  | none => basicEvaluation answer
  | some d =>
    let score : ℚ := min 100 (max 0 (d.score.getD 60))
    { overall_score := score
      technical_mastery := score
      problem_solving := max 0 (score - 5)
      communication := min 100 ((pyWordCount answer : ℚ) * 2)
      innovation := max 0 (score - 10)
      leadership := max 0 (score - 15)
      system_thinking := max 0 (score - 5)
      detailed_feedback := d.feedback.getD ("Score: " ++ toString score ++ "/100")
      hiring_decision :=
        { decision := d.decision.getD (if 70 ≤ score then "Hire" else "No Hire")
          confidence := min 1 (max (1 / 10) (score / 100)) } }

/-- Source `evaluate_answer` lines 80-82: the cache key
`f"eval_{role}_{md5(question[:50])[:6]}_{md5(answer[:100])[:10]}"`. -/
def evalCacheKey (role question answer : String) : String :=
  "eval_" ++ role ++ "_" ++ (md5Hex (question.take 50)).take 6 ++ "_" ++
    (md5Hex (answer.take 100)).take 10

/-- Source `generate_questions` lines 31-33: the cache key
`f"q_{role}_{exp_level}_{md5(str(skills))[:8]}"`. -/
def questionsCacheKey (role : String) (expLevel : Nat) (skills : List String) :
    String :=
  "q_" ++ role ++ "_" ++ toString expLevel ++ "_" ++
    (md5Hex (pyStrList skills)).take 8

/-- Outcome of `_api_call` plus the response-parsing stage: `failure` is the
`None` return (transport error, timeout, or non-200 status, lines 178-213);
`content c` is a 200 response whose body decodes to `c` (with `c = none`
when the body holds no parseable JSON object of the expected shape). -/
inductive ApiOutcome where
  | failure
  | content (c : Option EvalData)
deriving DecidableEq, Repr

/-- What one `evaluate_answer` call does: the returned evaluation, whether
the remote client was invoked, and the cache write it performs (if any). -/
structure EvalCallResult where
  result : Evaluation
  remoteCalled : Bool
  cacheWrite : Option (String × Evaluation)
deriving DecidableEq, Repr

/-- Source `evaluate_answer` (lines 69-119), with the cache contents and the
remote outcome passed explicitly.  Control flow, in source order: empty
(stripped) answer → `_poor_evaluation`; `use_ai` off or fewer than 30 words
→ `_basic_evaluation`; cache hit on `evalCacheKey` → the cached value with
no remote call; otherwise the remote call is made; on `None` the caller
falls through to `_basic_evaluation` with no cache write; on a response the
parse result is cached and returned — the source's guard `if evaluation:`
is always true because `_parse_evaluation` returns a non-empty dict on
every path (its parse-failure path returns `_basic_evaluation(answer)`). -/
def evaluateAnswer (useAi : Bool) (cache : String → Option Evaluation)
    (api : ApiOutcome) (question answer role : String) : EvalCallResult :=
  if pyStrip answer = "" then
    { result := poorEvaluation, remoteCalled := false, cacheWrite := none }
  else if useAi = false ∨ pyWordCount answer < 30 then
    { result := basicEvaluation answer, remoteCalled := false, cacheWrite := none }
  else
    let key := evalCacheKey role question answer
    match cache key with
    | some cached =>
      { result := cached, remoteCalled := false, cacheWrite := none }
    | none =>
      match api with
      | .failure =>
        { result := basicEvaluation answer, remoteCalled := true, cacheWrite := none }
      | .content c =>
        let evaluation := parseEvaluation c answer
        { result := evaluation, remoteCalled := true
          cacheWrite := some (key, evaluation) }

/-- The request parameters a client posts to the completions endpoint (the
prompt body is irrelevant to the claims and omitted; `timeout` is the
`requests.post` keyword, in seconds, `none` when the call site passes no
timeout at all). -/
structure ApiRequest where
  url : String
  model : String
  maxTokens : Nat
  temperature : ℚ
  timeout : Option Nat
deriving DecidableEq, Repr

/-- Source `_api_call` (lines 178-213): every `OptimizedDeepSeekAI` request
goes through this single call site, which always passes `timeout=15`. -/
def optimizedApiRequest (maxTokens : Nat) (temperature : ℚ) : ApiRequest :=
  { url := "https://api.deepseek.com/v1/chat/completions"
    model := "deepseek-chat"
    maxTokens := maxTokens
    temperature := temperature
    timeout := some 15 }

/-! ## Plain `DeepSeekAI` (src/deepseek_ai.py) -/

/-- The fields `DeepSeekAI._parse_evaluation` reads out of the decoded
response object. -/
structure DSEvalData where
  overall_score : Option ℚ
  technical_score : Option ℚ
  communication_score : Option ℚ
  problem_solving_score : Option ℚ
  feedback : Option String
  decision : Option String
deriving DecidableEq, Repr

/-- Source `DeepSeekAI._basic_evaluation` (lines 231-251). -/
def dsBasicEvaluation (answer : String) : Evaluation :=
  let words : ℚ := pyWordCount answer
  let score : ℚ := min 85 (max 30 (words * 2))
  { overall_score := score
    technical_mastery := score
    problem_solving := score - 5
    communication := min 80 words
    innovation := score - 10
    leadership := 65
    system_thinking := score - 5
    detailed_feedback := "Response evaluated. Score based on content depth and clarity."
    hiring_decision :=
      { decision := if 65 ≤ score then "Hire" else "No Hire"
        confidence := 7 / 10 } }

/-- Source `DeepSeekAI._parse_evaluation` (lines 166-194): the parsed scores
are taken over without any clamping (`innovation` is
`technical_score - 10`); on parse failure the source returns
`_basic_evaluation("")`. -/
def dsParseEvaluation (c : Option DSEvalData) : Evaluation :=
  match c with
  | none => dsBasicEvaluation ""
  | some d =>
    { overall_score := d.overall_score.getD 60
      technical_mastery := d.technical_score.getD 60
      problem_solving := d.problem_solving_score.getD 60
      communication := d.communication_score.getD 60
      innovation := d.technical_score.getD 60 - 10
      leadership := 70
      system_thinking := d.problem_solving_score.getD 60
      detailed_feedback := d.feedback.getD "Good response"
      hiring_decision := { decision := d.decision.getD "Hire", confidence := 8 / 10 } }

/-- Source `DeepSeekAI.evaluate_answer` (lines 54-97): its `requests.post`
call passes headers and a json payload but no `timeout` keyword, so the
request is issued with no timeout at all. -/
def dsEvalRequest (question answer role : String) : ApiRequest :=
  { url := "https://api.deepseek.com/v1/chat/completions"
    model := "deepseek-chat"
    maxTokens := 500
    temperature := 3 / 10
    timeout := none }

/-! ## `EnhancedResumeParser._extract_experience_years`
(src/enhanced_resume_parser.py, lines 201-236)

The source runs six `re.findall` scans over the already-lowercased text.
Each regex is transliterated into a scanner over the character list with the
same leftmost, non-overlapping match semantics; a capture is the matched
`(\d+)` (or year-pair) group.  Patterns, in source order:

* `(\d+)\+?\s*years?\s+(?:of\s+)?experience`
* `(\d+)\+?\s*years?\s+(?:in|with)`
* `experience.*?(\d+)\+?\s*years?`   (lazy gap, `.` not crossing a newline)
* `(\d+)\+?\s*years?\s+(?:professional|work)`
* `(20\d{2})\s*[-–]\s*(20\d{2}|present)`
* `(20\d{2})\s*[-–]\s*current`

The last pattern has a single group, so `re.findall` returns plain strings;
the source then runs `for start, end in matches`, which unpacks each
four-character year string into two variables and raises `ValueError` as
soon as that pattern has a match at all.  The model returns `Except` to
carry that exception. -/

/-- Drop a run of `\s*`. -/
def skipWs (l : List Char) : List Char := l.dropWhile pyIsSpace

/-- Match `\s+`: at least one whitespace character, then the rest of the
run. -/
def ws1 (l : List Char) : Option (List Char) :=
  match l with
  | c :: cs => if pyIsSpace c then some (skipWs cs) else none
  | [] => none

/-- Match a literal string. -/
def lit (pat : String) (l : List Char) : Option (List Char) :=
  if List.isPrefixOf pat.data l then some (l.drop pat.length) else none

/-- Numeric value of a digit run. -/
def digitsVal (ds : List Char) : Nat :=
  ds.foldl (fun n c => n * 10 + (c.toNat - 48)) 0

/-- Match `(\d+)`: a non-empty maximal digit run (nothing that follows in
these patterns can consume a digit, so the greedy run never backtracks). -/
def readNum (l : List Char) : Option (Nat × List Char) :=
  let ds := l.takeWhile Char.isDigit
  if ds = [] then none else some (digitsVal ds, l.dropWhile Char.isDigit)

/-- Match `\+?`. -/
def optPlus (l : List Char) : List Char :=
  match l with
  | c :: cs => if c = '+' then cs else l
  | [] => l

/-- Match `years?`: the literal `year` with an optional `s` (an `s` kept by
backtracking could only precede `\s+`, which an `s` fails anyway). -/
def yearsTok (l : List Char) : Option (List Char) :=
  match lit "year" l with
  | none => none
  | some r =>
    match r with
    | c :: cs => if c = 's' then some cs else some r
    | [] => some r

/-- Match `(\d+)\+?\s*years?` from the current position. -/
def numYears (l : List Char) : Option (Nat × List Char) :=
  match readNum l with
  | none => none
  | some (n, r1) =>
    match yearsTok (skipWs (optPlus r1)) with
    | none => none
    | some r2 => some (n, r2)

/-- Match pattern 1, `(\d+)\+?\s*years?\s+(?:of\s+)?experience`, at the
current position (with the regex's backtracking over the optional
`of\s+`). -/
def matchP1 (l : List Char) : Option (Nat × List Char) :=
  match numYears l with
  | none => none
  | some (n, r3) =>
    match ws1 r3 with
    | none => none
    | some r4 =>
      match lit "of" r4 with
      | some r5 =>
        match ws1 r5 with
        | some r6 =>
          match lit "experience" r6 with
          | some r7 => some (n, r7)
          | none => (lit "experience" r4).map (fun r => (n, r))
        | none => (lit "experience" r4).map (fun r => (n, r))
      | none => (lit "experience" r4).map (fun r => (n, r))

/-- Match pattern 2, `(\d+)\+?\s*years?\s+(?:in|with)`. -/
def matchP2 (l : List Char) : Option (Nat × List Char) :=
  match numYears l with
  | none => none
  | some (n, r3) =>
    match ws1 r3 with
    | none => none
    | some r4 =>
      match lit "in" r4 with
      | some r5 => some (n, r5)
      | none => (lit "with" r4).map (fun r => (n, r))

/-- Match pattern 4, `(\d+)\+?\s*years?\s+(?:professional|work)`. -/
def matchP4 (l : List Char) : Option (Nat × List Char) :=
  match numYears l with
  | none => none
  | some (n, r3) =>
    match ws1 r3 with
    | none => none
    | some r4 =>
      match lit "professional" r4 with
      | some r5 => some (n, r5)
      | none => (lit "work" r4).map (fun r => (n, r))

/-- Lazy tail of pattern 3: grow the `.*?` gap one character at a time
(never across a newline, since `.` does not match `\n`) until
`(\d+)\+?\s*years?` matches. -/
def p3Tail : Nat → List Char → Option (Nat × List Char)
  | 0, _ => none
  | _ + 1, [] => none
  | fuel + 1, c :: cs =>
    match numYears (c :: cs) with
    | some (n, r) => some (n, r)
    | none => if c = '\n' then none else p3Tail fuel cs

/-- Match pattern 3, `experience.*?(\d+)\+?\s*years?`. -/
def matchP3 (l : List Char) : Option (Nat × List Char) :=
  match lit "experience" l with
  | none => none
  | some r => p3Tail r.length r

/-- Match `20\d{2}` and return its numeric value. -/
def year4 (l : List Char) : Option (Nat × List Char) :=
  match l with
  | '2' :: '0' :: d1 :: d2 :: rest =>
    if d1.isDigit && d2.isDigit then
      some (2000 + (d1.toNat - 48) * 10 + (d2.toNat - 48), rest)
    else none
  | _ => none

/-- Match `\s*[-–]\s*` between two year tokens. -/
def dashSep (l : List Char) : Option (List Char) :=
  match skipWs l with
  | c :: cs => if c = '-' ∨ c = '–' then some (skipWs cs) else none
  | [] => none

/-- Match `(20\d{2})\s*[-–]\s*(20\d{2}|present)`; the second group is
`none` for `present` (the branch the source maps to the current year). -/
def matchD1 (l : List Char) : Option ((Nat × Option Nat) × List Char) :=
  match year4 l with
  | none => none
  | some (y1, r1) =>
    match dashSep r1 with
    | none => none
    | some r2 =>
      match year4 r2 with
      | some (y2, r3) => some ((y1, some y2), r3)
      | none => (lit "present" r2).map (fun r => ((y1, none), r))

/-- Match `(20\d{2})\s*[-–]\s*current` (one capture group). -/
def matchD2 (l : List Char) : Option (Nat × List Char) :=
  match year4 l with
  | none => none
  | some (y1, r1) =>
    match dashSep r1 with
    | none => none
    | some r2 => (lit "current" r2).map (fun r => (y1, r))

/-- Leftmost, non-overlapping `re.findall` scan: at each position try the
matcher; on success record the capture and continue after the match, else
advance one character.  Fuel `l.length` suffices because every one of the
matchers above consumes at least one character. -/
def scanCaptures {α : Type} : Nat → (List Char → Option (α × List Char)) →
    List Char → List α
  | 0, _, _ => []
  | _ + 1, _, [] => []
  | fuel + 1, m, c :: cs =>
    match m (c :: cs) with
    | some (v, rest) => v :: scanCaptures fuel m rest
    | none => scanCaptures fuel m cs

/-- All captures of a matcher over a string. -/
def findAll {α : Type} (m : List Char → Option (α × List Char)) (s : String) :
    List α :=
  scanCaptures s.data.length m s.data

/-- The source's `current_year = 2024` constant. -/
def currentYear : Nat := 2024

/-- Source `_extract_experience_years` (lines 201-236), over the lowercased
text.  `experience` is the running maximum of the explicit-phrase captures
(patterns 1-4); `total_experience` sums `max(0, end - start)` over the
`(20\d{2})\s*[-–]\s*(20\d{2}|present)` ranges; any match of the
one-group `current` pattern raises `ValueError` in the source's
`for start, end in matches` unpacking.  The returned value is
`max(experience, min(total_experience, 30))`. -/
def extractExperienceYears (textLower : String) : Except String Nat :=
  let explicit :=
    ((findAll matchP1 textLower ++ findAll matchP2 textLower ++
      findAll matchP3 textLower ++ findAll matchP4 textLower).foldl max 0)
  let ranges := findAll matchD1 textLower
  let total :=
    (ranges.map fun p => (p.2.getD currentYear) - p.1).sum
  if findAll matchD2 textLower ≠ [] then
    Except.error "ValueError: too many values to unpack (expected 2)"
  else
    Except.ok (max explicit (min total 30))

/-! ## `EnhancedResumeParser.parse_resume` fallback
(src/enhanced_resume_parser.py, lines 85-120 and 425-454)

Only the empty-text branch is at issue in the claims; the body of the
non-empty branch (the full extraction pipeline, lines 93-119) is abstracted
as a parameter.  Record entry types are flattened to strings, which is
exact for the fallback record (whose list fields are empty or plain). -/

/-- The `skills` sub-dict of a parsed profile. -/
structure SkillsData where
  all_skills : List String
  technical_by_category : List (String × List String)
  soft_skills : List String
  total_count : Nat
deriving DecidableEq, Repr

/-- A parsed candidate profile (the dict `parse_resume` returns). -/
structure ProfileData where
  name : String
  email : String
  phone : String
  location : String
  linkedin : String
  github : String
  skills : SkillsData
  experience_years : Nat
  education : List String
  certifications : List String
  projects : List String
  work_experience : List String
  languages : List String
  summary : String
  ats_score : Nat
  technical_depth : Nat
  leadership_score : Nat
  raw_text : String
deriving DecidableEq, Repr

/-- Source `_get_fallback_data` (lines 425-454): the record returned when no
text could be extracted.  It carries sample skills (`total_count = 5`) and
preset scores (`ats_score = 45`), not empty/zero fields. -/
def getFallbackData : ProfileData :=
  { name := "Candidate"
    email := ""
    phone := ""
    location := ""
    linkedin := ""
    github := ""
    skills :=
      { all_skills := ["Python", "JavaScript", "SQL"]
        technical_by_category :=
          [("programming_languages", ["Python", "JavaScript"]), ("databases", ["SQL"])]
        soft_skills := ["Communication", "Problem Solving"]
        total_count := 5 }
    experience_years := 2
    education := []
    certifications := []
    projects := []
    work_experience := []
    languages := ["English"]
    summary := ""
    ats_score := 45
    technical_depth := 35
    leadership_score := 25
    raw_text := "Sample resume data" }

/-- Source `parse_resume` (lines 85-120) over the already-extracted document
text: `if not text: return self._get_fallback_data()`, else the extraction
pipeline runs (`mainParse` abstracts lines 93-119, which the empty-text
claims never reach). -/
def parseResumeText (mainParse : String → ProfileData) (text : String) :
    ProfileData :=
  if text = "" then getFallbackData else mainParse text

/-! ## `AdvancedEvaluator` word-count gates
(src/advanced_evaluator.py, lines 73-128 and 177-219) -/

/-- Count of vocabulary terms occurring (as substrings) in the text — the
source's `sum(1 for term in terms if term in answer_lower)`. -/
def countPresent (terms : List String) (text : String) : Nat :=
  (terms.filter fun t => strContains text t).length

/-- Source list `advanced_concepts` (lines 79-89). -/
def advancedConcepts : List String :=
  ["distributed systems", "microservices", "event sourcing", "cqrs",
   "eventual consistency", "cap theorem", "acid properties", "base properties",
   "consensus algorithms", "raft", "paxos", "byzantine fault tolerance",
   "load balancing", "circuit breaker", "bulkhead pattern", "saga pattern",
   "caching strategies", "cache coherence", "memory hierarchy", "cpu cache",
   "garbage collection", "memory management", "jvm internals", "compiler optimization",
   "concurrency", "parallelism", "lock-free programming", "atomic operations",
   "database internals", "b-tree", "lsm tree", "mvcc", "isolation levels",
   "networking", "tcp/ip", "http/2", "websockets", "grpc", "message queues"]

/-- Source list `design_principles` (lines 95-99). -/
def designPrinciples : List String :=
  ["scalability", "reliability", "availability", "consistency", "partition tolerance",
   "fault tolerance", "disaster recovery", "monitoring", "observability",
   "security", "authentication", "authorization", "encryption", "data privacy"]

/-- Source list `code_quality` (line 112). -/
def codeQuality : List String :=
  ["clean code", "solid principles", "design patterns", "refactoring", "testing"]

/-- Source list `performance_terms` (line 117). -/
def performanceTerms : List String :=
  ["performance", "optimization", "latency", "throughput", "bottleneck", "profiling"]

/-- Source detail markers for the candidate-skill bonus (line 108). -/
def depthDetails : List String :=
  ["internal", "architecture", "implementation", "optimization"]

/-- The candidate-skill bonus of `_evaluate_technical_mastery` (lines
104-109): `+5` for each profile skill found in the lowered answer, but only
when at least one detail marker is present (the `any(...)` test does not
depend on the skill). -/
def skillDepthBonus (candidateSkills : List String) (answerLower : String) : ℚ :=
  if (depthDetails.filter fun t => strContains answerLower t) ≠ [] then
    5 * ((candidateSkills.filter fun sk => strContains answerLower sk).length : ℚ)
  else 0

/-- Pre-penalty sum of the technical-mastery sub-signals (lines 78-119),
named per the spec's factored reading of the word-count gate. -/
def techMasteryBase (candidateSkills : List String) (answer : String) : ℚ :=
  let answerLower := pyLower answer
  min 30 (2 * (countPresent advancedConcepts answerLower : ℚ)) +
    min 25 (2 * (countPresent designPrinciples answerLower : ℚ)) +
    skillDepthBonus candidateSkills answerLower +
    min 15 (3 * (countPresent codeQuality answerLower : ℚ)) +
    min 20 (4 * (countPresent performanceTerms answerLower : ℚ))

/-- The multiplicative short-answer penalty factor of
`_evaluate_technical_mastery` (lines 121-127): `×0.5` below 100 words,
`×0.7` below 200. -/
def wordCountPenaltyFactor (wc : Nat) : ℚ :=
  if wc < 100 then 1 / 2 else if wc < 200 then 7 / 10 else 1

/-- Source `_evaluate_technical_mastery` (lines 73-128): the summed
sub-signals, then the single multiplicative word-count penalty, then the
cap at 100. -/
def evaluateTechnicalMastery (candidateSkills : List String) (answer : String) :
    ℚ :=
  let score := techMasteryBase candidateSkills answer
  let wc := pyWordCount answer
  let score := if wc < 100 then score * (1 / 2)
    else if wc < 200 then score * (7 / 10) else score
  min 100 score

/-- Split a string on one separator character (Python `s.split(sep)`,
including empty pieces). -/
def splitCharAux (sep : Char) : List Char → List Char → List (List Char)
  | [], acc => [acc.reverse]
  | c :: cs, acc =>
    if c = sep then acc.reverse :: splitCharAux sep cs []
    else splitCharAux sep cs (c :: acc)

/-- Python `s.split(sep)` for a one-character separator. -/
def pySplitChar (sep : Char) (s : String) : List String :=
  (splitCharAux sep s.data []).map List.asString

/-- The source's sentence count (line 182):
`[s.strip() for s in answer.split('.') if s.strip()]`. -/
def sentenceCount (answer : String) : Nat :=
  ((pySplitChar '.' answer).filter fun s => pyStrip s ≠ "").length

/-- Source list `professional_terms` (lines 187-190). -/
def professionalTerms : List String :=
  ["implement", "develop", "architect", "design", "optimize", "analyze",
   "evaluate", "assess", "collaborate", "coordinate", "facilitate", "deliver"]

/-- Source list `explanation_words` (lines 195-198). -/
def explanationWords : List String :=
  ["because", "therefore", "however", "moreover", "furthermore", "consequently",
   "as a result", "in addition", "for example", "specifically", "in particular"]

/-- Source list `confidence_words` (lines 203-206). -/
def confidenceWords : List String :=
  ["confident", "experienced", "successfully", "achieved", "delivered",
   "proven", "demonstrated", "expertise", "proficient", "skilled"]

/-- Pre-adjustment sum of the communication sub-signals (lines 181-208):
sentence structure, professional vocabulary, technical connectives,
confidence markers. -/
def commContentScore (answer : String) : ℚ :=
  let answerLower := pyLower answer
  (if 5 ≤ sentenceCount answer then (20 : ℚ) else 0) +
    min 20 (3 * (countPresent professionalTerms answerLower : ℚ)) +
    min 25 (4 * (countPresent explanationWords answerLower : ℚ)) +
    min 15 (3 * (countPresent confidenceWords answerLower : ℚ))

/-- The additive word-count adjustment of
`_evaluate_communication_excellence` (lines 211-217): `+20` for 200-500
words, `+10` above 500, `-20` below 100, else `0`. -/
def commWordCountAdjustment (wc : Nat) : ℚ :=
  if 200 ≤ wc ∧ wc ≤ 500 then 20
  else if 500 < wc then 10
  else if wc < 100 then -20
  else 0

/-- Source `_evaluate_communication_excellence` (lines 177-219): the summed
sub-signals, then the additive word-count adjustment, then
`max(0, min(100, score))`. -/
def evaluateCommunicationExcellence (answer : String) : ℚ :=
  let score := commContentScore answer
  let wc := pyWordCount answer
  let score :=
    if 200 ≤ wc ∧ wc ≤ 500 then score + 20
    else if 500 < wc then score + 10
    else if wc < 100 then score - 20
    else score
  max 0 (min 100 score)

/-! ## Session aggregation
(src/huggingface_mcp_server.py `complete_interview_with_hf`, lines 407-424;
src/minimal_app.py `get_results`, lines 176-190) -/

/-- The session's overall score:
`sum(overall_scores) / len(overall_scores)` over the accumulated
evaluations. -/
def sessionAverageScore (evals : List Evaluation) : ℚ :=
  (evals.map (·.overall_score)).sum / (evals.length : ℚ)

/-- One dimension's average over the accumulated evaluations:
`sum(scores) / len(scores)` for `dim` ranging over the six dimension
projections. -/
def sessionDimensionAverage (dim : Evaluation → ℚ) (evals : List Evaluation) :
    ℚ :=
  (evals.map dim).sum / (evals.length : ℚ)

/-! ## Fixtures and range predicates used by the theorems -/

/-- A thirty-word answer: long enough (`word_count >= 30`) to reach the
remote-assist path of `evaluate_answer`. -/
def longAnswer30 : String := String.intercalate " " (List.replicate 30 "word")

/-- A fifty-character string: the question-prefix length of the evaluation
cache key. -/
def fiftyChars : String := "01234567890123456789012345678901234567890123456789"

/-- A hundred-character string: the answer-prefix length of the evaluation
cache key. -/
def hundredChars : String := fiftyChars ++ fiftyChars

/-- All six dimension scores of an evaluation lie in `[0, 100]`. -/
def dimsInRange (e : Evaluation) : Prop :=
  (0 ≤ e.technical_mastery ∧ e.technical_mastery ≤ 100) ∧
    (0 ≤ e.problem_solving ∧ e.problem_solving ≤ 100) ∧
    (0 ≤ e.communication ∧ e.communication ≤ 100) ∧
    (0 ≤ e.innovation ∧ e.innovation ≤ 100) ∧
    (0 ≤ e.leadership ∧ e.leadership ≤ 100) ∧
    (0 ≤ e.system_thinking ∧ e.system_thinking ≤ 100)

/-! ## Theorems -/

/-- Claim C3: for every role, question and configuration, evaluating an
empty or whitespace-only answer raises nothing and returns exactly the poor
evaluation: overall score 20, communication 10, decision "No Hire", with no
remote call and no cache write. -/
theorem C3_empty_answer_returns_poor_evaluation (useAi : Bool)
    (cache : String → Option Evaluation) (api : ApiOutcome)
    (question answer role : String) (h : pyStrip answer = "") :
    evaluateAnswer useAi cache api question answer role =
      { result := poorEvaluation, remoteCalled := false, cacheWrite := none } ∧
      poorEvaluation.overall_score = 20 ∧
      poorEvaluation.communication = 10 ∧
      poorEvaluation.hiring_decision.decision = "No Hire" := by
  refine ⟨?_, rfl, rfl, rfl⟩
  simp [evaluateAnswer, h]

/-- Witness for C3 at the whitespace-only answer `"   "`. -/
theorem C3_empty_answer_returns_poor_evaluation_witness :
    pyStrip "   " = "" ∧
    (evaluateAnswer true (fun _ => none) ApiOutcome.failure "Q" "   " "Developer" =
      { result := poorEvaluation, remoteCalled := false, cacheWrite := none } ∧
      poorEvaluation.overall_score = 20 ∧
      poorEvaluation.communication = 10 ∧
      poorEvaluation.hiring_decision.decision = "No Hire") :=
  ⟨by decide,
    C3_empty_answer_returns_poor_evaluation true (fun _ => none) ApiOutcome.failure
      "Q" "   " "Developer" (by decide)⟩

/-- Claim C5 (code bug): on the text `"50 years of experience"`,
`_extract_experience_years` returns 50, exceeding the documented cap of 30 —
the source caps only the date-range estimator (`min(total_experience, 30)`)
and passes the explicit-phrase estimator through `max` unclamped, against
its own `# Cap at 30 years` comment. -/
theorem C5_explicit_phrase_exceeds_cap :
    extractExperienceYears "50 years of experience" = Except.ok 50 ∧
      ¬(50 ≤ 30) := by
  exact ⟨rfl, by decide⟩

/-- Claim C6 counterexample: on the empty document text the parser returns
its sample-filled fallback record — `skills.total_count` is 5 (not 0) and
`ats_score` is 45 (not at most 15). -/
theorem C6_empty_text_counterexample :
    (parseResumeText (fun _ => getFallbackData) "").skills.total_count = 5 ∧
      (parseResumeText (fun _ => getFallbackData) "").ats_score = 45 ∧
      ¬((parseResumeText (fun _ => getFallbackData) "").skills.total_count = 0) ∧
      ¬((parseResumeText (fun _ => getFallbackData) "").ats_score ≤ 15) := by
  refine ⟨rfl, rfl, by decide, by decide⟩

/-- Claim C6 amended: profile extraction on the empty text returns (without
raising) the fallback record, whose `name` is `"Candidate"` and `email` is
`""`, but whose `skills.total_count` is 5 and `ats_score` is 45, whatever
the non-empty-text extraction pipeline does. -/
theorem C6_empty_text_returns_fallback (mainParse : String → ProfileData) :
    parseResumeText mainParse "" = getFallbackData ∧
      (parseResumeText mainParse "").name = "Candidate" ∧
      (parseResumeText mainParse "").email = "" ∧
      (parseResumeText mainParse "").skills.total_count = 5 ∧
      (parseResumeText mainParse "").ats_score = 45 :=
  ⟨rfl, rfl, rfl, rfl, rfl⟩

/-- Claim C1 (code bug): with an empty cache and a 200 response whose body
holds no parseable JSON object, `evaluate_answer` computes the local
fallback `_basic_evaluation(answer)` and writes it to the cache before
returning it — `_parse_evaluation` returns that fallback (a truthy dict)
instead of `None`, so the `if evaluation:` guard does not stop the write
and the degraded value poisons the cache. -/
theorem C1_unparseable_response_poisons_cache :
    evaluateAnswer true (fun _ => none) (ApiOutcome.content none)
        "Tell me about your experience." longAnswer30 "Developer" =
      { result := basicEvaluation longAnswer30
        remoteCalled := true
        cacheWrite := some
          (evalCacheKey "Developer" "Tell me about your experience." longAnswer30,
            basicEvaluation longAnswer30) } := by
  rfl

/-- Claim C2 counterexample: the plain `DeepSeekAI.evaluate_answer` posts
its request with no `timeout` argument at all, so not every remote assist
request carries a fixed finite timeout. -/
theorem C2_plain_client_request_has_no_timeout :
    (dsEvalRequest "Q" "An answer." "Developer").timeout = none := rfl

/-- Claim C2 amended: every `OptimizedDeepSeekAI` request goes through
`_api_call` with `timeout=15`, and when the remote call fails (timeout,
transport error or non-200 status) `evaluate_answer` writes nothing to the
cache and still returns a complete evaluation — the poor evaluation, the
local basic fallback, or a previously cached value.  (The plain `DeepSeekAI`
client, by contrast, posts with no timeout; see the counterexample.) -/
theorem C2_optimized_timeout_and_soft_failure :
    (∀ (mt : Nat) (temp : ℚ), (optimizedApiRequest mt temp).timeout = some 15) ∧
    (∀ (useAi : Bool) (cache : String → Option Evaluation)
      (question answer role : String),
      (evaluateAnswer useAi cache ApiOutcome.failure question answer role).cacheWrite
          = none ∧
      ((evaluateAnswer useAi cache ApiOutcome.failure question answer role).result
            = poorEvaluation ∨
        (evaluateAnswer useAi cache ApiOutcome.failure question answer role).result
            = basicEvaluation answer ∨
        ∃ v, cache (evalCacheKey role question answer) = some v ∧
          (evaluateAnswer useAi cache ApiOutcome.failure question answer role).result
            = v)) := by
  refine ⟨fun mt temp => rfl, fun useAi cache question answer role => ?_⟩
  unfold evaluateAnswer
  split_ifs with h1 h2
  · exact ⟨rfl, Or.inl rfl⟩
  · exact ⟨rfl, Or.inr (Or.inl rfl)⟩
  · cases hc : cache (evalCacheKey role question answer) with
    | none => simp [hc]
    | some v => simp [hc]

/-- Helper: the basic fallback evaluation keeps all six dimension scores in
`[0, 100]`. -/
theorem dimsInRange_basicEvaluation (answer : String) :
    dimsInRange (basicEvaluation answer) := by
  unfold dimsInRange basicEvaluation
  simp only
  set w : ℚ := (pyWordCount answer : ℚ) with hw
  have hw0 : 0 ≤ w := by positivity
  set s : ℚ := min 85 (max 30 (w * (12 / 10))) with hs
  have h30 : (30 : ℚ) ≤ s := le_min (by norm_num) (le_max_left _ _)
  have h85 : s ≤ 85 := min_le_left _ _
  have hfloor : ∀ c : ℚ, ((⌊s - c⌋ : ℤ) : ℚ) ≤ s - c := fun c => Int.floor_le _
  refine ⟨⟨?_, ?_⟩, ⟨?_, ?_⟩, ⟨?_, ?_⟩, ⟨?_, ?_⟩, ⟨?_, ?_⟩, ⟨?_, ?_⟩⟩
  · exact_mod_cast Int.floor_nonneg.mpr (by linarith)
  · calc ((⌊s⌋ : ℤ) : ℚ) ≤ s := Int.floor_le _
      _ ≤ 100 := by linarith
  · push_cast
    exact le_max_left _ _
  · push_cast
    exact max_le (by norm_num) ((hfloor 5).trans (by linarith))
  · exact le_min (by norm_num) (by positivity)
  · exact min_le_left _ _
  · push_cast
    exact le_max_left _ _
  · push_cast
    exact max_le (by norm_num) ((hfloor 10).trans (by linarith))
  · push_cast
    exact le_max_left _ _
  · push_cast
    exact max_le (by norm_num) ((hfloor 15).trans (by linarith))
  · push_cast
    exact le_max_left _ _
  · push_cast
    exact max_le (by norm_num) ((hfloor 5).trans (by linarith))

/-- Claim C4 counterexample: `DeepSeekAI._parse_evaluation` clamps nothing;
a parsed response whose `technical_score` is 5 (a value its own prompt
range `0-100` allows) yields `innovation = technical_score - 10 = -5`,
outside `[0, 100]`. -/
theorem C4_plain_parse_dimension_out_of_range :
    (dsParseEvaluation (some ⟨none, some 5, none, none, none, none⟩)).innovation
        = -5 ∧
      ¬(0 ≤ (dsParseEvaluation
          (some ⟨none, some 5, none, none, none, none⟩)).innovation) := by
  constructor
  · show (5 : ℚ) - 10 = -5
    norm_num
  · show ¬(0 ≤ (5 : ℚ) - 10)
    norm_num

/-- Claim C4 amended: the `OptimizedDeepSeekAI` evaluator does keep every
dimension score in `[0, 100]` on all three paths (parsed remote response —
clamped via `min(100, max(0, score))` — local basic fallback, and the
empty-answer floor); the plain `DeepSeekAI._parse_evaluation`, however,
passes parsed scores through unclamped (see the counterexample). -/
theorem C4_optimized_dimensions_in_range :
    (∀ (c : Option EvalData) (answer : String),
      dimsInRange (parseEvaluation c answer)) ∧
    (∀ answer : String, dimsInRange (basicEvaluation answer)) ∧
    dimsInRange poorEvaluation := by
  refine ⟨fun c answer => ?_, dimsInRange_basicEvaluation, ?_⟩
  · cases c with
    | none => exact dimsInRange_basicEvaluation answer
    | some d =>
      unfold dimsInRange parseEvaluation
      simp only
      set s : ℚ := min 100 (max 0 (d.score.getD 60)) with hs
      have h0 : (0 : ℚ) ≤ s := le_min (by norm_num) (le_max_left _ _)
      have h100 : s ≤ 100 := min_le_left _ _
      refine ⟨⟨h0, h100⟩, ⟨le_max_left _ _, max_le (by norm_num) (by linarith)⟩,
        ⟨le_min (by norm_num) (by positivity), min_le_left _ _⟩,
        ⟨le_max_left _ _, max_le (by norm_num) (by linarith)⟩,
        ⟨le_max_left _ _, max_le (by norm_num) (by linarith)⟩,
        ⟨le_max_left _ _, max_le (by norm_num) (by linarith)⟩⟩
  · unfold dimsInRange poorEvaluation
    norm_num

/-- Claim C10: every confidence the optimized evaluator produces lies in
`[0, 1]`; the parsed-response path clamps it to `[0.1, 1]` via
`min(1.0, max(0.1, score/100))`, the basic fallback to `[0.5, 0.9]` via
`min(0.9, max(0.5, score/100))`, and the empty-answer floor fixes `0.9`. -/
theorem C10_confidence_in_unit_interval :
    (∀ (d : EvalData) (answer : String),
      1 / 10 ≤ (parseEvaluation (some d) answer).hiring_decision.confidence ∧
        (parseEvaluation (some d) answer).hiring_decision.confidence ≤ 1) ∧
    (∀ answer : String,
      1 / 2 ≤ (basicEvaluation answer).hiring_decision.confidence ∧
        (basicEvaluation answer).hiring_decision.confidence ≤ 9 / 10) ∧
    (∀ (c : Option EvalData) (answer : String),
      0 ≤ (parseEvaluation c answer).hiring_decision.confidence ∧
        (parseEvaluation c answer).hiring_decision.confidence ≤ 1) ∧
    (0 ≤ poorEvaluation.hiring_decision.confidence ∧
      poorEvaluation.hiring_decision.confidence ≤ 1) := by
  have hparse : ∀ (d : EvalData) (answer : String),
      1 / 10 ≤ (parseEvaluation (some d) answer).hiring_decision.confidence ∧
        (parseEvaluation (some d) answer).hiring_decision.confidence ≤ 1 := by
    intro d answer
    show 1 / 10 ≤ min 1 (max (1 / 10) _) ∧ min 1 (max (1 / 10) _) ≤ 1
    exact ⟨le_min (by norm_num) (le_max_left _ _), min_le_left _ _⟩
  have hbasic : ∀ answer : String,
      1 / 2 ≤ (basicEvaluation answer).hiring_decision.confidence ∧
        (basicEvaluation answer).hiring_decision.confidence ≤ 9 / 10 := by
    intro answer
    show 1 / 2 ≤ min (9 / 10) (max (5 / 10) _) ∧ min (9 / 10) (max (5 / 10) _) ≤ 9 / 10
    constructor
    · refine le_min (by norm_num) ?_
      calc (1 / 2 : ℚ) ≤ 5 / 10 := by norm_num
        _ ≤ max (5 / 10) _ := le_max_left _ _
    · exact min_le_left _ _
  refine ⟨hparse, hbasic, fun c answer => ?_, by norm_num [poorEvaluation]⟩
  cases c with
  | none =>
    have h := hbasic answer
    show 0 ≤ (basicEvaluation answer).hiring_decision.confidence ∧
      (basicEvaluation answer).hiring_decision.confidence ≤ 1
    constructor
    · linarith [h.1]
    · linarith [h.2]
  | some d =>
    have h := hparse d answer
    exact ⟨by linarith [h.1], h.2⟩

/-- Claim C7: the session score is the arithmetic mean of the evaluations'
overall scores, every dimension average is the arithmetic mean of that
dimension, both are invariant under permuting the evaluation list, and the
single-evaluation session goes through the same formula (mean of one). -/
theorem C7_aggregation_is_order_independent_mean
    (evals evals' : List Evaluation) (hne : evals ≠ [])
    (hperm : evals.Perm evals') :
    sessionAverageScore evals
        = (evals.map (fun e => e.overall_score)).sum / (evals.length : ℚ) ∧
      sessionAverageScore evals' = sessionAverageScore evals ∧
      (∀ dim : Evaluation → ℚ,
        sessionDimensionAverage dim evals' = sessionDimensionAverage dim evals) ∧
      (∀ e : Evaluation, sessionAverageScore [e] = e.overall_score) := by
  refine ⟨rfl, ?_, fun dim => ?_, fun e => ?_⟩
  · unfold sessionAverageScore
    rw [← (hperm.map (fun e => e.overall_score)).sum_eq, ← hperm.length_eq]
  · unfold sessionDimensionAverage
    rw [← (hperm.map dim).sum_eq, ← hperm.length_eq]
  · simp [sessionAverageScore]

/-- Witness for C7 on the two-evaluation session `[poor, basic]` and its
swap. -/
theorem C7_aggregation_is_order_independent_mean_witness :
    ([poorEvaluation, dsBasicEvaluation ""] ≠ ([] : List Evaluation)) ∧
    ([poorEvaluation, dsBasicEvaluation ""].Perm
      [dsBasicEvaluation "", poorEvaluation]) ∧
    (sessionAverageScore [poorEvaluation, dsBasicEvaluation ""]
        = ([poorEvaluation, dsBasicEvaluation ""].map
            (fun e => e.overall_score)).sum /
          (([poorEvaluation, dsBasicEvaluation ""] : List Evaluation).length : ℚ) ∧
      sessionAverageScore [dsBasicEvaluation "", poorEvaluation]
        = sessionAverageScore [poorEvaluation, dsBasicEvaluation ""] ∧
      (∀ dim : Evaluation → ℚ,
        sessionDimensionAverage dim [dsBasicEvaluation "", poorEvaluation]
          = sessionDimensionAverage dim [poorEvaluation, dsBasicEvaluation ""]) ∧
      (∀ e : Evaluation, sessionAverageScore [e] = e.overall_score)) :=
  ⟨by simp, List.Perm.swap _ _ _,
    C7_aggregation_is_order_independent_mean _ _ (by simp) (List.Perm.swap _ _ _)⟩

/-- Claim C8 counterexample: no normalization happens before hashing — a
trailing space in the role, a doubled space inside the answer, or a
reordering of the skills list each produce a different cache key. -/
theorem C8_cache_key_not_normalized :
    evalCacheKey "Developer" "Q1" "alpha beta"
        ≠ evalCacheKey "Developer " "Q1" "alpha beta" ∧
      evalCacheKey "Developer" "Q1" "alpha beta"
        ≠ evalCacheKey "Developer" "Q1" "alpha  beta" ∧
      questionsCacheKey "Developer" 5 ["Python", "AWS"]
        ≠ questionsCacheKey "Developer" 5 ["AWS", "Python"] := by
  exact ⟨by decide, by decide, by decide⟩

/-- Claim C8 amended: the evaluation cache key is a deterministic function
of the raw role and the raw 50-character question / 100-character answer
prefixes that are hashed — nothing is normalized, so byte-identical
prefixes (and only those) are interchangeable. -/
theorem C8_key_determined_by_raw_prefixes
    (role question question' answer answer' : String)
    (hq : question.take 50 = question'.take 50)
    (ha : answer.take 100 = answer'.take 100) :
    evalCacheKey role question answer = evalCacheKey role question' answer' := by
  unfold evalCacheKey
  rw [hq, ha]

/-- Witness for C8 amended: questions and answers that agree on the hashed
prefix but differ afterwards get the same key. -/
theorem C8_key_determined_by_raw_prefixes_witness :
    (fiftyChars ++ "X").take 50 = (fiftyChars ++ "Y").take 50 ∧
      (hundredChars ++ "X").take 100 = (hundredChars ++ "Y").take 100 ∧
      evalCacheKey "Developer" (fiftyChars ++ "X") (hundredChars ++ "X")
        = evalCacheKey "Developer" (fiftyChars ++ "Y") (hundredChars ++ "Y") :=
  ⟨by decide, by decide,
    C8_key_determined_by_raw_prefixes "Developer" _ _ _ _ (by decide) (by decide)⟩

/-- Claim C9 counterexample: on the two-word answer `"implement because"`
the communication dimension applies its short-answer adjustment additively
(content 7, minus 20, clamped to 0), not as the claimed single
multiplicative factor, which would give `7 × 0.5 = 3.5`. -/
theorem C9_communication_gate_is_additive :
    evaluateCommunicationExcellence "implement because" = 0 ∧
      max 0 (min 100 (commContentScore "implement because" *
        wordCountPenaltyFactor (pyWordCount "implement because"))) = 7 / 2 ∧
      (0 : ℚ) ≠ 7 / 2 := by
  have hsc : sentenceCount "implement because" = 1 := by decide
  have h1 : countPresent professionalTerms (pyLower "implement because") = 1 := by
    decide
  have h2 : countPresent explanationWords (pyLower "implement because") = 1 := by
    decide
  have h3 : countPresent confidenceWords (pyLower "implement because") = 0 := by
    decide
  have hwc : pyWordCount "implement because" = 2 := by decide
  have hcs : commContentScore "implement because" = 7 := by
    simp only [commContentScore]
    rw [hsc, h1, h2, h3]
    norm_num [min_def]
  refine ⟨?_, ?_, by norm_num⟩
  · simp only [evaluateCommunicationExcellence]
    rw [hcs, hwc]
    norm_num [min_def, max_def]
  · rw [hcs, hwc]
    unfold wordCountPenaltyFactor
    norm_num [min_def, max_def]

/-- Claim C9 amended: technical mastery applies the word-count penalty as
one multiplicative factor exactly once, to the summed sub-signals (`×0.5`
below 100 words, `×0.7` below 200) before the cap; communication excellence
instead applies an additive word-count adjustment (`+20`, `+10` or `-20`)
inside its clamp — a different penalty form, so the gate is not applied
identically across the dimensions that use it. -/
theorem C9_word_count_gate_forms (candidateSkills : List String)
    (answer : String) :
    evaluateTechnicalMastery candidateSkills answer
        = min 100 (techMasteryBase candidateSkills answer *
            wordCountPenaltyFactor (pyWordCount answer)) ∧
      evaluateCommunicationExcellence answer
        = max 0 (min 100 (commContentScore answer +
            commWordCountAdjustment (pyWordCount answer))) := by
  constructor
  · simp only [evaluateTechnicalMastery, wordCountPenaltyFactor]
    split_ifs
    · rfl
    · rfl
    · rw [mul_one]
  · simp only [evaluateCommunicationExcellence, commWordCountAdjustment]
    split_ifs
    · rfl
    · rfl
    · rw [sub_eq_add_neg]
    · rw [add_zero]
